import Mathlib

/-!
Shallow embedding of `configure_devices_nornir_napalm.py`: the platform
detection / normalization pipeline, the per-device NAPALM session lifecycle
and the fleet-level staging protocol.

Python strings are modelled as `String` (as `List Char` for the character
level path helper), Python dicts with a fixed key set as structures, Python
`None` as `Option.none`, and exceptions as `Except`.  The external
collaborators (the netmiko `SSHDetect` probe, the device's commit behaviour
and its configuration store) are oracles passed in as function arguments; the
napalm factory `get_network_driver` and the two static netutils vocabulary
tables are modelled from the spec's description of those collaborators.
-/

namespace NapalmProject

/-- `UtilityMixin.add_forward_slash`, with the Python string modelled as its
list of characters.  Python's `path.startswith("/")` is `head? = some '/'` and
`path.endswith("/")` is `getLast? = some '/'`; the second test runs on the
possibly already-prefixed value, exactly as in the source. -/
def add_forward_slash (path : List Char) : List Char :=
  let path1 : List Char := if path.head? = some '/' then path else '/' :: path
  if path1.getLast? = some '/' then path1 else path1 ++ ['/']

/-- Python `table.get(key, dflt)` over an association-list model of a dict
with string keys. -/
def dict_get (table : List (String × String)) (key : String) (dflt : String) :
    String :=
  (table.lookup key).getD dflt

/-- Python `table.get(key, dflt)` where the key may be `None`.  The tables in
scope have only string keys, so a `None` key always misses and returns the
default. -/
def dict_get_opt (table : List (String × String)) (key : Option String)
    (dflt : String) : String :=
  match key with
  | none => dflt
  | some k => dict_get table k dflt

/-- Modelled from the spec: the static netutils table mapping the netmiko
probe vocabulary to the canonical (normalized) vocabulary, restricted to a
representative finite set of entries.  The spec only requires a static,
immutable table with unique keys, looked up total-with-default. -/
def NETMIKO_LIB_MAPPER_REVERSE : List (String × String) :=
  [("cisco_ios", "cisco_ios"),
   ("cisco_xe", "cisco_xe"),
   ("cisco_xr", "cisco_xr"),
   ("cisco_nxos", "cisco_nxos"),
   ("arista_eos", "arista_eos"),
   ("juniper_junos", "juniper_junos")]

/-- Modelled from the spec: the static netutils table mapping the canonical
vocabulary to the napalm driver vocabulary, restricted to a representative
finite set of entries. -/
def NAPALM_LIB_MAPPER_REVERSE : List (String × String) :=
  [("cisco_ios", "ios"),
   ("cisco_xe", "ios"),
   ("cisco_xr", "iosxr"),
   ("cisco_nxos", "nxos"),
   ("arista_eos", "eos"),
   ("juniper_junos", "junos")]

/-- The netmiko probe connection parameter dict built by
`NetmikoDriverGuesser.create_netmiko_device_params` (fixed key set
`host`, `username`, `password`, `secret`, `device_type`). -/
structure NetmikoParams where
  host : Option String
  username : String
  password : String
  secret : String
  device_type : String
deriving DecidableEq, Repr

/-- The `optional_args` sub-dict of the napalm construction parameters. -/
structure OptionalArgs where
  secret : String
  inline_transfer : Bool
deriving DecidableEq, Repr

/-- The napalm driver construction parameter dict built by
`NapalmDeviceConnection.create_napalm_device_params`.  The base dict has keys
`hostname`, `username`, `password`, `optional_args`; the source's
`base_params.update({"secret": self.secret})` adds a further top-level
`secret` key (it does not touch `optional_args`), modelled here by the
`secret : Option String` field, `none` meaning the key is absent. -/
structure NapalmParams where
  hostname : Option String
  username : String
  password : String
  optional_args : OptionalArgs
  secret : Option String
deriving DecidableEq, Repr

/-- `NetmikoDriverGuesser.create_netmiko_device_params`.  The base dict sets
`secret` to the password; `if self.secret:` (Python truthiness: `None` and
the empty string are falsy) overwrites it with the explicit secret; then one
copy per IP is made with `host` filled in.  The source annotates the result
as `List[Optional[Dict]]`, so each appended dict is wrapped in `some`. -/
def create_netmiko_device_params (device_ips : List String)
    (username password : String) (secret : Option String) :
    List (Option NetmikoParams) :=
  let base : NetmikoParams :=
    { host := none, username := username, password := password,
      secret := password, device_type := "autodetect" }
  let base : NetmikoParams :=
    match secret with
    | some s => if s.isEmpty then base else { base with secret := s }
    | none => base
  device_ips.map (fun ip => some { base with host := some ip })

/-- `NetmikoDriverGuesser.get_netmiko_platform`.  The loop appends
`SSHDetect(**device_param).autodetect()` for every truthy `device_param`
(a `None` entry would be skipped by the `if device_param:` guard; the
parameter dicts built by this class are never empty, hence always truthy).
The probe collaborator is the oracle `probe`; its result may be `None`. -/
def get_netmiko_platform (probe : NetmikoParams → Option String)
    (params : List (Option NetmikoParams)) : List (Option String) :=
  params.filterMap (fun p => p.map probe)

/-- `NapalmDriverGuesser.normalize_netmiko_platform`: a list comprehension
applying `NETMIKO_LIB_MAPPER_REVERSE.get(platform, "")` to every guessed
platform (which may be `None`). -/
def normalize_netmiko_platform (netmiko_guesser : List (Option String)) :
    List String :=
  netmiko_guesser.map
    (fun platform => dict_get_opt NETMIKO_LIB_MAPPER_REVERSE platform "")

/-- The first half of `NapalmDriverGuesser.get_napalm_driver`: the pure list
comprehension `NAPALM_LIB_MAPPER_REVERSE.get(platform, "")` over the
normalized platforms. -/
def napalm_netutils_drivers (normalized : List String) : List String :=
  normalized.map (fun platform => dict_get NAPALM_LIB_MAPPER_REVERSE platform "")

/-- `NapalmDeviceConnection.create_napalm_device_params`.  The base dict puts
the password into `optional_args.secret`; `if self.secret:` then runs
`base_params.update({"secret": self.secret})`, which adds a **top-level**
`secret` key and leaves `optional_args` untouched; one shallow copy per IP is
made with `hostname` filled in. -/
def create_napalm_device_params (device_ips : List String)
    (username password : String) (secret : Option String) :
    List NapalmParams :=
  let base : NapalmParams :=
    { hostname := none, username := username, password := password,
      optional_args := { secret := password, inline_transfer := true },
      secret := none }
  let base : NapalmParams :=
    match secret with
    | some s => if s.isEmpty then base else { base with secret := some s }
    | none => base
  device_ips.map (fun ip => { base with hostname := some ip })

/-- The failure kinds observable in the pipeline.  `ModuleImportError` is the
exception raised inside the napalm collaborator's factory on an unrecognized
driver name; `ResolutionFailure` is the pre-construction validation failure
the spec's DriverResolver contract prescribes (this code never raises it);
`CommitFailure` carries the index of the device whose commit was rejected. -/
inductive PipelineError where
  | ModuleImportError : String → PipelineError
  | ResolutionFailure : String → PipelineError
  | CommitFailure : Nat → PipelineError
deriving DecidableEq, Repr

/-- A napalm driver class, identified by the driver-vocabulary name it was
resolved from. -/
structure NapalmDriver where
  name : String
deriving DecidableEq, Repr

/-- Modelled from the spec: the driver names the vendor driver collaborator's
factory recognizes (the napalm driver vocabulary), as a representative finite
set. -/
def known_napalm_drivers : List String :=
  ["ios", "iosxr", "nxos", "eos", "junos"]

/-- Modelled from the spec: the vendor driver collaborator's factory
`napalm.get_network_driver` — given a driver-vocabulary name it returns a
constructible driver type, and on an empty or unrecognized name it raises
from deep inside the collaborator (a module import error) rather than
returning. -/
def get_network_driver (name : String) : Except PipelineError NapalmDriver :=
  if name ∈ known_napalm_drivers then .ok ⟨name⟩
  else .error (.ModuleImportError name)

/-- The observable actions of one run, for stating ordering properties.
Devices are identified by their position in the original address list.
`renderWrite` is the write of the rendered configuration to its file path;
`resolveDriver` is a call into the napalm factory; `constructDriver` is the
driver construction `driver(**params)`; `openConn`, `load`, `commit`,
`getConfig` (carrying the extracted `startup` entry) and `close` are the
session lifecycle calls.  A `commit i` event is recorded only for a commit
that succeeded. -/
inductive Event where
  | renderWrite : String → Event
  | resolveDriver : String → Event
  | constructDriver : Nat → Event
  | openConn : Nat → Event
  | load : Nat → String → Event
  | commit : Nat → Event
  | getConfig : Nat → Option String → Event
  | close : Nat → Event
deriving DecidableEq, Repr

/-- The loop in `NapalmDriverGuesser.get_napalm_driver` that calls
`get_network_driver(driver)` on each looked-up name, appending the results;
the first raising call aborts the loop and the enclosing run. -/
def get_napalm_driver_loop :
    List String → List Event × Except PipelineError (List NapalmDriver)
  | [] => ([], .ok [])
  | n :: rest =>
    match get_network_driver n with
    | .error e => ([.resolveDriver n], .error e)
    | .ok d =>
      let r := get_napalm_driver_loop rest
      (.resolveDriver n :: r.1,
       match r.2 with
       | .ok ds => .ok (d :: ds)
       | .error e => .error e)

/-- `NapalmDriverGuesser.get_napalm_driver`: the vocabulary lookup followed
by the factory loop. -/
def get_napalm_driver (normalized : List String) :
    List Event × Except PipelineError (List NapalmDriver) :=
  get_napalm_driver_loop (napalm_netutils_drivers normalized)

/-- `NapalmDeviceConnection.connect_to_device`: `zip` of the resolved drivers
with the per-device parameter dicts, then one construction per pair.  The
resulting connections are identified by their positions. -/
def connect_to_device_conns (drivers : List NapalmDriver)
    (params : List NapalmParams) : List Nat :=
  List.range (List.zip drivers params).length

/-- `NapalmDeviceConnection.send_config_file`: one loop over the connections,
calling `open()` and then `load_merge_candidate(filename=...)` on each device
in turn before moving to the next device. -/
def send_config_file (config_path : String) (conns : List Nat) : List Event :=
  conns.flatMap (fun i => [.openConn i, .load i config_path])

/-- The commit loop of `NapalmDeviceConnection.commit_config`: each
connection's `commit_config()` in order; a rejected commit raises, aborting
the loop (no retry, no rollback of the devices already committed — the model
has no rollback action at all). -/
def commit_loop (commitOk : Nat → Bool) :
    List Nat → List Event × Except PipelineError Unit
  | [] => ([], .ok ())
  | i :: rest =>
    if commitOk i then
      let r := commit_loop commitOk rest
      (.commit i :: r.1, r.2)
    else ([], .error (.CommitFailure i))

/-- `NapalmDeviceConnection.commit_config`: first `send_config_file` (open
and stage every device), then the commit loop. -/
def commit_config (commitOk : Nat → Bool) (config_path : String)
    (conns : List Nat) : List Event × Except PipelineError Unit :=
  let r := commit_loop commitOk conns
  (send_config_file config_path conns ++ r.1, r.2)

/-- `NapalmDeviceConnection.return_saved_configs`: after `commit_config`,
loop over the connections reading `conn.get_config().get("startup")`
(the device's configuration store is the oracle `device_configs`) and
closing each connection. -/
def return_saved_configs (commitOk : Nat → Bool)
    (device_configs : Nat → List (String × String)) (config_path : String)
    (conns : List Nat) : List Event × Except PipelineError Unit :=
  let r := commit_config commitOk config_path conns
  match r.2 with
  | .error e => (r.1, .error e)
  | .ok _ =>
    (r.1 ++
      conns.flatMap
        (fun i => [.getConfig i ((device_configs i).lookup "startup"),
                   .close i]),
     .ok ())

/-- The outcome of one run of the module-level `connect_to_device` function:
the trace of observable actions and the final result. -/
structure RunResult where
  trace : List Event
  result : Except PipelineError Unit
deriving Repr

/-- The module-level `connect_to_device` function: render and write the
configuration file once, build the netmiko probe parameters and guess every
device's platform, normalize and resolve the napalm drivers, then construct
all connections and drive `return_saved_configs`.  A raising stage aborts
the run at that point. -/
def connect_to_device_run (probe : NetmikoParams → Option String)
    (commitOk : Nat → Bool)
    (device_configs : Nat → List (String × String))
    (device_ips : List String) (username password : String)
    (secret : Option String) (config_path : String) : RunResult :=
  let render_events : List Event := [.renderWrite config_path]
  let netmiko_params := create_netmiko_device_params device_ips username
    password secret
  let netmiko_guesser := get_netmiko_platform probe netmiko_params
  let normalized := normalize_netmiko_platform netmiko_guesser
  let resolved := get_napalm_driver normalized
  match resolved.2 with
  | .error e => ⟨render_events ++ resolved.1, .error e⟩
  | .ok drivers =>
    let napalm_params := create_napalm_device_params device_ips username
      password secret
    let conns := connect_to_device_conns drivers napalm_params
    let construct_events := conns.map Event.constructDriver
    let sess := return_saved_configs commitOk device_configs config_path conns
    ⟨render_events ++ resolved.1 ++ construct_events ++ sess.1, sess.2⟩

/-- Event kind: the rendered-configuration write. -/
def is_render_ev : Event → Bool
  | .renderWrite _ => true
  | _ => false

/-- Event kind: a session `open()` call. -/
def is_open_ev : Event → Bool
  | .openConn _ => true
  | _ => false

/-- Event kind: a `load_merge_candidate` staging call. -/
def is_load_ev : Event → Bool
  | .load _ _ => true
  | _ => false

/-- Event kind: a session open or staging call (the connect-and-stage
phase). -/
def is_connect_or_stage_ev (e : Event) : Bool := is_open_ev e || is_load_ev e

/-- Event kind: a successful `commit_config()` call. -/
def is_commit_ev : Event → Bool
  | .commit _ => true
  | _ => false

/-- Event kind: a readback (`get_config`) or `close()` call. -/
def is_readback_or_close_ev : Event → Bool
  | .getConfig _ _ => true
  | .close _ => true
  | _ => false

/-- Event kind: any per-device driver or session action (construction, open,
load, commit, readback, close). -/
def is_session_ev : Event → Bool
  | .constructDriver _ => true
  | .openConn _ => true
  | .load _ _ => true
  | .commit _ => true
  | .getConfig _ _ => true
  | .close _ => true
  | _ => false

/-- Event kind: a session lifecycle call (open, load, commit, readback,
close) of device `i`. -/
def is_dev_session_ev (i : Nat) : Event → Bool
  | .openConn j => j == i
  | .load j _ => j == i
  | .commit j => j == i
  | .getConfig j _ => j == i
  | .close j => j == i
  | _ => false

/-- Stage-batching order over a trace: `all_before p q tr = true` when no
`p`-event occurs strictly after a `q`-event; for disjoint kinds `p` and `q`
this says every `p`-event precedes every `q`-event. -/
def all_before (p q : Event → Bool) : List Event → Bool
  | [] => true
  | e :: rest => (!q e || rest.all (fun x => !p x)) && all_before p q rest

/-- The privileged-mode credential a device's probe parameters end up with:
the login password unless a truthy (non-`None`, non-empty) explicit secret
was supplied. -/
def effective_secret (password : String) (secret : Option String) : String :=
  match secret with
  | some s => if s.isEmpty then password else s
  | none => password

/-- The top-level `secret` key the napalm parameter builder adds: present
exactly when a truthy explicit secret was supplied. -/
def truthy_secret (secret : Option String) : Option String :=
  match secret with
  | some s => if s.isEmpty then none else some s
  | none => none

/-- The netmiko probe parameter dict device `ip` receives. -/
def netmiko_param_for (username password : String) (secret : Option String)
    (ip : String) : NetmikoParams :=
  { host := some ip, username := username, password := password,
    secret := effective_secret password secret, device_type := "autodetect" }

/-- The napalm construction parameter dict device `ip` receives. -/
def napalm_param_for (username password : String) (secret : Option String)
    (ip : String) : NapalmParams :=
  { hostname := some ip, username := username, password := password,
    optional_args := { secret := password, inline_transfer := true },
    secret := truthy_secret secret }

/-- The normalized-platform list the pipeline computes for a fleet:
parameter building, probing, then the first vocabulary lookup. -/
def pipeline_normalized (probe : NetmikoParams → Option String)
    (ips : List String) (u p : String) (s : Option String) : List String :=
  normalize_netmiko_platform
    (get_netmiko_platform probe (create_netmiko_device_params ips u p s))

/-- The driver-vocabulary name list the pipeline computes for a fleet: the
second vocabulary lookup over the normalized platforms. -/
def pipeline_driver_names (probe : NetmikoParams → Option String)
    (ips : List String) (u p : String) (s : Option String) : List String :=
  napalm_netutils_drivers (pipeline_normalized probe ips u p s)

/-- C1's invariant: each derived fleet artifact equals a `map` over the
original address list (hence has the fleet's length, and its entry at index
`i` is derived from the address at index `i`), and the resolved driver list
is the `map` of the driver-name list. -/
def fleet_lists_aligned (probe : NetmikoParams → Option String)
    (ips : List String) (u p : String) (s : Option String)
    (ds : List NapalmDriver) : Prop :=
  create_netmiko_device_params ips u p s
      = ips.map (fun ip => some (netmiko_param_for u p s ip)) ∧
  get_netmiko_platform probe (create_netmiko_device_params ips u p s)
      = ips.map (fun ip => probe (netmiko_param_for u p s ip)) ∧
  pipeline_normalized probe ips u p s
      = ips.map (fun ip =>
          dict_get_opt NETMIKO_LIB_MAPPER_REVERSE
            (probe (netmiko_param_for u p s ip)) "") ∧
  create_napalm_device_params ips u p s = ips.map (napalm_param_for u p s) ∧
  ds = (pipeline_driver_names probe ips u p s).map (fun n => ⟨n⟩) ∧
  (create_netmiko_device_params ips u p s).length = ips.length ∧
  (get_netmiko_platform probe
      (create_netmiko_device_params ips u p s)).length = ips.length ∧
  (pipeline_normalized probe ips u p s).length = ips.length ∧
  (create_napalm_device_params ips u p s).length = ips.length ∧
  ds.length = ips.length

/-- C2's amended invariant: after the interleaved per-device connect-and-
stage loop, execution is stage-batched — every open/stage call precedes
every commit, and every commit precedes every readback/close. -/
def stage_batched_after_staging (rr : RunResult) : Prop :=
  all_before is_connect_or_stage_ev is_commit_ev rr.trace = true ∧
  all_before is_commit_ev is_readback_or_close_ev rr.trace = true

/-- Whether a run result is the spec's prescribed pre-construction
`ResolutionFailure`. -/
def is_resolution_failure : Except PipelineError Unit → Bool
  | .error (.ResolutionFailure _) => true
  | _ => false

/-- C3's amended property: the run fails with the collaborator's import
error on an unrecognized driver-vocabulary name, and the trace shows no
driver construction and no session activity at all (no device connected,
staged or committed). -/
def resolution_fails_without_sessions (rr : RunResult) : Prop :=
  (∃ n, rr.result = .error (.ModuleImportError n) ∧
    n ∉ known_napalm_drivers) ∧
  ∀ e ∈ rr.trace, is_session_ev e = false

/-- C7's property: the rendered configuration write is the first action of
the run, happens exactly once, precedes every staging load, and every load
references the one shared file path. -/
def rendered_once_before_staging (rr : RunResult) (config_path : String) :
    Prop :=
  rr.trace.head? = some (.renderWrite config_path) ∧
  rr.trace.countP is_render_ev = 1 ∧
  (∀ i pth, Event.load i pth ∈ rr.trace → pth = config_path) ∧
  all_before is_render_ev is_load_ev rr.trace = true

/-- C8's property: a commit rejected at device `k` aborts the run with a
`CommitFailure`; the committed devices are exactly `0..k-1`, committed once
each (no retry, and the model contains no rollback action that could undo
them), and no readback or close is ever reached. -/
def commit_abort_state (rr : RunResult) (k : Nat) : Prop :=
  rr.result = .error (.CommitFailure k) ∧
  rr.trace.filter is_commit_ev = (List.range k).map Event.commit ∧
  ∀ e ∈ rr.trace, is_readback_or_close_ev e = false

/-- C9's property: the run succeeds and device `i`'s session lifecycle
events are exactly open, load of the shared path, commit, readback of the
configuration mapping's `startup` entry, close — each once, in that
order. -/
def device_session_ordered (rr : RunResult) (i : Nat) (config_path : String)
    (startup : Option String) : Prop :=
  rr.result = .ok () ∧
  rr.trace.filter (is_dev_session_ev i)
    = [.openConn i, .load i config_path, .commit i,
       .getConfig i startup, .close i]

/-- A probe oracle answering `cisco_ios` for every device. -/
def probe_cisco : NetmikoParams → Option String := fun _ => some "cisco_ios"

/-- A probe oracle answering `cisco_ios` for the first scenario device and
an unrecognized string for every other device. -/
def probe_unknown_second : NetmikoParams → Option String := fun prm =>
  if prm.host = some "10.0.0.1" then some "cisco_ios" else some "mystery_box"

/-- A commit oracle accepting every commit. -/
def all_commits_ok : Nat → Bool := fun _ => true

/-- A commit oracle accepting only the first device's commit (the spec's
end-to-end scenario C). -/
def first_commit_ok : Nat → Bool := fun i => i == 0

/-- A configuration-store oracle with a non-empty `startup` entry. -/
def startup_configs : Nat → List (String × String) :=
  fun _ => [("startup", "hostname r1")]

/-- The concrete two-device run in which everything succeeds. -/
def two_device_run : RunResult :=
  connect_to_device_run probe_cisco all_commits_ok startup_configs
    ["10.0.0.1", "10.0.0.2"] "admin" "cisco" none "/cfg/config.txt"

/-- The concrete two-device run in which device 2's probe answer is
unrecognized (the spec's end-to-end scenario B). -/
def unknown_platform_run : RunResult :=
  connect_to_device_run probe_unknown_second all_commits_ok startup_configs
    ["10.0.0.1", "10.0.0.2"] "admin" "cisco" none "/cfg/config.txt"

/-! ### Helper lemmas -/

/-- The path helper's output always starts with a slash. -/
theorem add_forward_slash_head (s : List Char) :
    (add_forward_slash s).head? = some '/' := by
  simp only [add_forward_slash]
  split
  · rename_i h
    split
    · exact h
    · rw [List.head?_append, h]
      rfl
  · split
    · rfl
    · rw [List.head?_append]
      rfl

/-- The path helper's output always ends with a slash. -/
theorem add_forward_slash_last (s : List Char) :
    (add_forward_slash s).getLast? = some '/' := by
  simp only [add_forward_slash]
  split
  · split
    · assumption
    · rw [List.getLast?_concat]
  · split
    · assumption
    · rw [List.getLast?_concat]

/-- A path that already starts and ends with a slash is returned
unchanged. -/
theorem add_forward_slash_fixed {s : List Char} (h1 : s.head? = some '/')
    (h2 : s.getLast? = some '/') : add_forward_slash s = s := by
  simp [add_forward_slash, h1, h2]

/-! ### C10 -/

/-- C10: the path-normalization helper `add_forward_slash` is idempotent and
normalizing — for every string `s` (modelled as its character list) the
result starts and ends with `"/"`, applying the helper twice equals applying
it once, and a string already starting and ending with `"/"` is returned
unchanged. -/
theorem C10_add_forward_slash_idempotent_normalizing (s : List Char) :
    (add_forward_slash s).head? = some '/' ∧
    (add_forward_slash s).getLast? = some '/' ∧
    add_forward_slash (add_forward_slash s) = add_forward_slash s ∧
    (s.head? = some '/' → s.getLast? = some '/' → add_forward_slash s = s) :=
  ⟨add_forward_slash_head s, add_forward_slash_last s,
   add_forward_slash_fixed (add_forward_slash_head s)
     (add_forward_slash_last s),
   fun h1 h2 => add_forward_slash_fixed h1 h2⟩

/-- C10 witness: the helper evaluated at the concrete path `"/cfg/"`, whose
hypotheses (starts and ends with a slash) hold. -/
theorem C10_witness :
    ("/cfg/".data.head? = some '/' ∧ "/cfg/".data.getLast? = some '/') ∧
    ((add_forward_slash "/cfg/".data).head? = some '/' ∧
     (add_forward_slash "/cfg/".data).getLast? = some '/' ∧
     add_forward_slash (add_forward_slash "/cfg/".data)
        = add_forward_slash "/cfg/".data ∧
     ("/cfg/".data.head? = some '/' → "/cfg/".data.getLast? = some '/' →
        add_forward_slash "/cfg/".data = "/cfg/".data)) :=
  ⟨by decide, C10_add_forward_slash_idempotent_normalizing "/cfg/".data⟩

/-! ### C4 -/

/-- C4: the two vocabulary lookups are pure total functions: a `None` key
returns the empty sentinel, every recognized key of either table maps to its
table value, and any unrecognized key maps to the empty sentinel. -/
theorem C4_vocabulary_lookups_total_with_default (k : String) :
    dict_get_opt NETMIKO_LIB_MAPPER_REVERSE none "" = "" ∧
    (∀ p ∈ NETMIKO_LIB_MAPPER_REVERSE,
      dict_get_opt NETMIKO_LIB_MAPPER_REVERSE (some p.1) "" = p.2) ∧
    (∀ p ∈ NAPALM_LIB_MAPPER_REVERSE,
      dict_get NAPALM_LIB_MAPPER_REVERSE p.1 "" = p.2) ∧
    (NETMIKO_LIB_MAPPER_REVERSE.lookup k = none →
      dict_get_opt NETMIKO_LIB_MAPPER_REVERSE (some k) "" = "") ∧
    (NAPALM_LIB_MAPPER_REVERSE.lookup k = none →
      dict_get NAPALM_LIB_MAPPER_REVERSE k "" = "") := by
  refine ⟨rfl, by decide, by decide, fun h => ?_, fun h => ?_⟩ <;>
    simp [dict_get_opt, dict_get, h]

/-- C4 witness: the lookups evaluated at the concrete unrecognized key
`"mystery_box"`, whose miss hypotheses hold. -/
theorem C4_witness :
    (NETMIKO_LIB_MAPPER_REVERSE.lookup "mystery_box" = none ∧
     NAPALM_LIB_MAPPER_REVERSE.lookup "mystery_box" = none) ∧
    (dict_get_opt NETMIKO_LIB_MAPPER_REVERSE none "" = "" ∧
     (∀ p ∈ NETMIKO_LIB_MAPPER_REVERSE,
       dict_get_opt NETMIKO_LIB_MAPPER_REVERSE (some p.1) "" = p.2) ∧
     (∀ p ∈ NAPALM_LIB_MAPPER_REVERSE,
       dict_get NAPALM_LIB_MAPPER_REVERSE p.1 "" = p.2) ∧
     (NETMIKO_LIB_MAPPER_REVERSE.lookup "mystery_box" = none →
       dict_get_opt NETMIKO_LIB_MAPPER_REVERSE (some "mystery_box") "" = "") ∧
     (NAPALM_LIB_MAPPER_REVERSE.lookup "mystery_box" = none →
       dict_get NAPALM_LIB_MAPPER_REVERSE "mystery_box" "" = "")) :=
  ⟨by decide, C4_vocabulary_lookups_total_with_default "mystery_box"⟩

/-! ### C5 -/

/-- C5: with no explicit secret supplied, every device's probe parameters
carry the login password in their `secret` field, and every device's driver
construction parameters carry the login password in `optional_args.secret`. -/
theorem C5_secret_defaults_to_password (ips : List String) (u p : String) :
    (∀ q ∈ create_netmiko_device_params ips u p none,
      q.map NetmikoParams.secret = some p) ∧
    (∀ prm ∈ create_napalm_device_params ips u p none,
      prm.optional_args.secret = p) := by
  constructor
  · intro q hq
    simp only [create_netmiko_device_params, List.mem_map] at hq
    obtain ⟨ip, _, rfl⟩ := hq
    rfl
  · intro prm hprm
    simp only [create_napalm_device_params, List.mem_map] at hprm
    obtain ⟨ip, _, rfl⟩ := hprm
    rfl

/-- C5 witness: the parameter builders evaluated on a concrete one-device
fleet with no explicit secret; the fleet is non-empty, so the quantified
memberships are non-vacuous. -/
theorem C5_witness :
    ((create_netmiko_device_params ["10.0.0.1"] "admin" "cisco" none).length
        = 1 ∧
     (create_napalm_device_params ["10.0.0.1"] "admin" "cisco" none).length
        = 1) ∧
    ((∀ q ∈ create_netmiko_device_params ["10.0.0.1"] "admin" "cisco" none,
        q.map NetmikoParams.secret = some "cisco") ∧
     (∀ prm ∈ create_napalm_device_params ["10.0.0.1"] "admin" "cisco" none,
        prm.optional_args.secret = "cisco")) :=
  ⟨by decide, C5_secret_defaults_to_password ["10.0.0.1"] "admin" "cisco"⟩

/-! ### C6 -/

/-- C6 (code bug): with the explicit secret `"enable-pw"` and login password
`"login-pw"`, the driver construction parameters keep the login password in
`optional_args.secret` and instead acquire a stray top-level `secret` key —
the supplied secret never reaches `optional_args`, contradicting the claim. -/
theorem C6_supplied_secret_missing_from_optional_args :
    (create_napalm_device_params ["10.0.0.1"] "admin" "login-pw"
        (some "enable-pw")).map
        (fun prm => (prm.optional_args.secret, prm.secret))
      = [("login-pw", some "enable-pw")] := by decide

/-- `all_before` holds vacuously on a trace with no `q`-event. -/
theorem all_before_of_no_q {p q : Event → Bool} {tr : List Event}
    (h : ∀ e ∈ tr, q e = false) : all_before p q tr = true := by
  induction tr with
  | nil => rfl
  | cons e rest ih =>
    simp only [all_before, Bool.and_eq_true]
    refine ⟨?_, ih fun x hx => h x (by simp [hx])⟩
    have he : q e = false := h e (by simp)
    simp [he]

/-- `all_before` holds vacuously on a trace with no `p`-event. -/
theorem all_before_of_no_p {p q : Event → Bool} {tr : List Event}
    (h : ∀ e ∈ tr, p e = false) : all_before p q tr = true := by
  induction tr with
  | nil => rfl
  | cons e rest ih =>
    simp only [all_before, Bool.and_eq_true]
    refine ⟨?_, ih fun x hx => h x (by simp [hx])⟩
    have hall : rest.all (fun x => !p x) = true := by
      rw [List.all_eq_true]
      intro x hx
      simp [h x (by simp [hx])]
    simp [hall]

/-- When the first part of a trace has no `q`-event and the second no
`p`-event, every `p`-event precedes every `q`-event. -/
theorem all_before_append {p q : Event → Bool} {l₁ l₂ : List Event}
    (h₁ : ∀ e ∈ l₁, q e = false) (h₂ : ∀ e ∈ l₂, p e = false) :
    all_before p q (l₁ ++ l₂) = true := by
  induction l₁ with
  | nil => simpa using all_before_of_no_p h₂
  | cons e rest ih =>
    simp only [List.cons_append, all_before, Bool.and_eq_true]
    refine ⟨?_, ih fun x hx => h₁ x (by simp [hx])⟩
    have he : q e = false := h₁ e (by simp)
    simp [he]

/-- A successful factory call returns the driver named by its argument. -/
theorem get_network_driver_ok {n : String} {d : NapalmDriver}
    (h : get_network_driver n = .ok d) :
    d = ⟨n⟩ ∧ n ∈ known_napalm_drivers := by
  unfold get_network_driver at h
  split at h
  · cases h
    exact ⟨rfl, by assumption⟩
  · cases h

/-- Every event logged by the resolution loop is a factory call. -/
theorem mem_resolve_loop {names : List String} {e : Event}
    (h : e ∈ (get_napalm_driver_loop names).1) :
    ∃ n, e = .resolveDriver n := by
  induction names with
  | nil => simp [get_napalm_driver_loop] at h
  | cons n rest ih =>
    cases hg : get_network_driver n with
    | error err =>
      simp only [get_napalm_driver_loop, hg, List.mem_singleton] at h
      exact ⟨n, h⟩
    | ok d =>
      simp only [get_napalm_driver_loop, hg, List.mem_cons] at h
      rcases h with h | h
      · exact ⟨n, h⟩
      · exact ih h

/-- A successful resolution loop logged one factory call per name and
returned one driver per name, in the input order. -/
theorem resolve_loop_of_ok {names : List String} {ds : List NapalmDriver}
    (h : (get_napalm_driver_loop names).2 = .ok ds) :
    (get_napalm_driver_loop names).1 = names.map Event.resolveDriver ∧
    ds = names.map (fun n => ⟨n⟩) := by
  induction names generalizing ds with
  | nil =>
    simp only [get_napalm_driver_loop] at h ⊢
    cases h
    exact ⟨rfl, rfl⟩
  | cons n rest ih =>
    cases hg : get_network_driver n with
    | error err => simp [get_napalm_driver_loop, hg] at h
    | ok d =>
      have hd := (get_network_driver_ok hg).1
      cases hr : (get_napalm_driver_loop rest).2 with
      | error err => simp [get_napalm_driver_loop, hg, hr] at h
      | ok ds2 =>
        simp only [get_napalm_driver_loop, hg, hr] at h
        cases h
        have := ih hr
        simp [get_napalm_driver_loop, hg, hr, this.1, this.2, hd]

/-- A name outside the factory vocabulary makes the resolution loop fail
with the factory's import error on some unrecognized name. -/
theorem resolve_loop_of_bad {names : List String}
    (h : ∃ n ∈ names, n ∉ known_napalm_drivers) :
    ∃ m, (get_napalm_driver_loop names).2
        = .error (.ModuleImportError m) ∧ m ∉ known_napalm_drivers := by
  induction names with
  | nil => simp at h
  | cons n rest ih =>
    by_cases hn : n ∈ known_napalm_drivers
    · have hg : get_network_driver n = .ok ⟨n⟩ := by
        simp [get_network_driver, hn]
      have hrest : ∃ m ∈ rest, m ∉ known_napalm_drivers := by
        rcases h with ⟨m, hm, hmk⟩
        rcases List.mem_cons.mp hm with rfl | hm2
        · exact absurd hn hmk
        · exact ⟨m, hm2, hmk⟩
      rcases ih hrest with ⟨m, hm2, hmk⟩
      exact ⟨m, by simp [get_napalm_driver_loop, hg, hm2], hmk⟩
    · have hg : get_network_driver n = .error (.ModuleImportError n) := by
        simp [get_network_driver, hn]
      exact ⟨n, by simp [get_napalm_driver_loop, hg], hn⟩

/-- Every event of the connect-and-stage loop is an open or a load of the
shared config path. -/
theorem mem_send_config_file {path : String} {conns : List Nat} {e : Event}
    (h : e ∈ send_config_file path conns) :
    ∃ i, e = .openConn i ∨ e = .load i path := by
  unfold send_config_file at h
  rw [List.mem_flatMap] at h
  rcases h with ⟨i, _, hi⟩
  simp only [List.mem_cons, List.mem_singleton] at hi
  rcases hi with h | h | h
  · exact ⟨i, Or.inl h⟩
  · exact ⟨i, Or.inr h⟩
  · cases h

/-- Every event the commit loop logs is a commit of a listed device. -/
theorem mem_commit_loop {ok : Nat → Bool} {l : List Nat} {e : Event}
    (h : e ∈ (commit_loop ok l).1) : ∃ i, e = .commit i ∧ i ∈ l := by
  induction l with
  | nil => simp [commit_loop] at h
  | cons i rest ih =>
    by_cases hi : ok i = true
    · simp only [commit_loop, hi, if_true, List.mem_cons] at h
      rcases h with h | h
      · exact ⟨i, h, by simp⟩
      · rcases ih h with ⟨j, hj, hjm⟩
        exact ⟨j, hj, by simp [hjm]⟩
    · simp [commit_loop, hi] at h

/-- When every listed device's commit is accepted, the commit loop logs one
commit per device in order and succeeds. -/
theorem commit_loop_all_ok {ok : Nat → Bool} {l : List Nat}
    (h : ∀ i ∈ l, ok i = true) :
    commit_loop ok l = (l.map Event.commit, .ok ()) := by
  induction l with
  | nil => rfl
  | cons i rest ih =>
    have hi : ok i = true := h i (by simp)
    simp [commit_loop, hi, ih fun j hj => h j (by simp [hj])]

/-- The commit loop over an accepted prefix concatenates that prefix's
commits with the loop over the remainder. -/
theorem commit_loop_append {ok : Nat → Bool} {l₁ l₂ : List Nat}
    (h : ∀ i ∈ l₁, ok i = true) :
    commit_loop ok (l₁ ++ l₂)
      = (l₁.map Event.commit ++ (commit_loop ok l₂).1,
         (commit_loop ok l₂).2) := by
  induction l₁ with
  | nil => simp
  | cons i rest ih =>
    have hi : ok i = true := h i (by simp)
    simp [commit_loop, hi, ih fun j hj => h j (by simp [hj])]

/-- The commit loop over the whole fleet, when the first rejected commit is
device `k`: devices `0..k-1` commit, the loop aborts with `CommitFailure k`,
and no later device is attempted. -/
theorem commit_loop_range_fail {ok : Nat → Bool} {n k : Nat} (hk : k < n)
    (hok : ∀ j, j < k → ok j = true) (hfail : ok k = false) :
    commit_loop ok (List.range n)
      = ((List.range k).map Event.commit, .error (.CommitFailure k)) := by
  have hsplit : List.range n = List.range k ++ List.range' k (n - k) := by
    have h1 : n = (n - k) + k := by omega
    rw [List.range_eq_range', List.range_eq_range']
    conv_lhs => rw [h1]
    rw [← List.range'_append 0 k (n - k) 1]
    simp
  rw [hsplit,
    commit_loop_append fun j hj => hok j (List.mem_range.mp hj)]
  have hnk : n - k = (n - k - 1) + 1 := by omega
  rw [hnk, List.range'_succ]
  simp [commit_loop, hfail]

/-- The netmiko parameter list is the address list mapped through the
per-device parameter constructor. -/
theorem create_netmiko_eq (ips : List String) (u p : String)
    (s : Option String) :
    create_netmiko_device_params ips u p s
      = ips.map (fun ip => some (netmiko_param_for u p s ip)) := by
  unfold create_netmiko_device_params netmiko_param_for effective_secret
  cases s with
  | none => rfl
  | some str => by_cases hs : str.isEmpty <;> simp [hs]

/-- The detected-platform list is the address list mapped through the probe
of each device's parameters: the truthiness guard in the loop never drops an
entry. -/
theorem get_netmiko_platform_eq (probe : NetmikoParams → Option String)
    (ips : List String) (u p : String) (s : Option String) :
    get_netmiko_platform probe (create_netmiko_device_params ips u p s)
      = ips.map (fun ip => probe (netmiko_param_for u p s ip)) := by
  rw [create_netmiko_eq]
  unfold get_netmiko_platform
  rw [List.filterMap_map]
  exact congrFun (List.filterMap_eq_map _) ips

/-- The napalm parameter list is the address list mapped through the
per-device parameter constructor. -/
theorem create_napalm_eq (ips : List String) (u p : String)
    (s : Option String) :
    create_napalm_device_params ips u p s
      = ips.map (napalm_param_for u p s) := by
  unfold create_napalm_device_params napalm_param_for truthy_secret
  cases s with
  | none => rfl
  | some str => by_cases hs : str.isEmpty <;> simp [hs]

/-- The normalized-platform list has one entry per fleet address. -/
theorem pipeline_normalized_eq (probe : NetmikoParams → Option String)
    (ips : List String) (u p : String) (s : Option String) :
    pipeline_normalized probe ips u p s
      = ips.map (fun ip =>
          dict_get_opt NETMIKO_LIB_MAPPER_REVERSE
            (probe (netmiko_param_for u p s ip)) "") := by
  unfold pipeline_normalized normalize_netmiko_platform
  rw [get_netmiko_platform_eq, List.map_map]
  rfl

/-- With a successful resolution, the zipped connection list enumerates the
fleet positions `0..N-1`. -/
theorem conns_eq_range {probe : NetmikoParams → Option String}
    {ips : List String} {u p : String} {s : Option String}
    {ds : List NapalmDriver}
    (h : (get_napalm_driver (pipeline_normalized probe ips u p s)).2
        = .ok ds) :
    connect_to_device_conns ds (create_napalm_device_params ips u p s)
      = List.range ips.length := by
  have hds := (resolve_loop_of_ok h).2
  have hlen : ds.length = ips.length := by
    rw [hds]
    unfold napalm_netutils_drivers
    rw [List.length_map, List.length_map, pipeline_normalized_eq,
      List.length_map]
  unfold connect_to_device_conns
  rw [List.length_zip, hlen, create_napalm_eq, List.length_map]
  simp

/-- The run when resolution fails: the trace is the render followed by the
factory calls up to the failure, and the failure is the final result. -/
theorem run_eq_of_resolve_error {probe : NetmikoParams → Option String}
    {commitOk : Nat → Bool} {cfgs : Nat → List (String × String)}
    {ips : List String} {u p : String} {s : Option String} {path : String}
    {err : PipelineError}
    (h : (get_napalm_driver (pipeline_normalized probe ips u p s)).2
        = .error err) :
    connect_to_device_run probe commitOk cfgs ips u p s path
      = ⟨.renderWrite path ::
          (get_napalm_driver (pipeline_normalized probe ips u p s)).1,
         .error err⟩ := by
  unfold pipeline_normalized at h ⊢
  simp only [connect_to_device_run, h, List.singleton_append]

/-- The run when resolution succeeds: the render, one factory call per
driver name, one construction per fleet position, then the session phase
over the whole fleet. -/
theorem run_eq_of_resolve_ok {probe : NetmikoParams → Option String}
    {commitOk : Nat → Bool} {cfgs : Nat → List (String × String)}
    {ips : List String} {u p : String} {s : Option String} {path : String}
    {ds : List NapalmDriver}
    (h : (get_napalm_driver (pipeline_normalized probe ips u p s)).2
        = .ok ds) :
    connect_to_device_run probe commitOk cfgs ips u p s path
      = ⟨.renderWrite path ::
          ((pipeline_driver_names probe ips u p s).map Event.resolveDriver
            ++ (List.range ips.length).map Event.constructDriver
            ++ (return_saved_configs commitOk cfgs path
                  (List.range ips.length)).1),
         (return_saved_configs commitOk cfgs path
            (List.range ips.length)).2⟩ := by
  have hconns := conns_eq_range h
  have hev : (get_napalm_driver (pipeline_normalized probe ips u p s)).1
      = (pipeline_driver_names probe ips u p s).map Event.resolveDriver :=
    (resolve_loop_of_ok h).1
  unfold pipeline_driver_names at hev ⊢
  unfold pipeline_normalized at h hev hconns ⊢
  simp only [connect_to_device_run, h, hconns, hev, List.singleton_append,
    List.cons_append, List.append_assoc, List.nil_append]

/-- The session phase when every commit is accepted: stage all, commit all,
then read back and close all. -/
theorem return_saved_configs_of_ok {commitOk : Nat → Bool}
    {cfgs : Nat → List (String × String)} {path : String} {conns : List Nat}
    (h : ∀ i ∈ conns, commitOk i = true) :
    return_saved_configs commitOk cfgs path conns
      = (send_config_file path conns ++ conns.map Event.commit ++
          conns.flatMap
            (fun i => [.getConfig i ((cfgs i).lookup "startup"), .close i]),
         .ok ()) := by
  unfold return_saved_configs commit_config
  rw [commit_loop_all_ok h]

/-- The session phase when a commit is rejected: stage all, then the commit
prefix up to the rejection, and the rejection as the result. -/
theorem return_saved_configs_of_fail {commitOk : Nat → Bool}
    {cfgs : Nat → List (String × String)} {path : String} {conns : List Nat}
    {err : PipelineError}
    (h : (commit_loop commitOk conns).2 = .error err) :
    return_saved_configs commitOk cfgs path conns
      = (send_config_file path conns ++ (commit_loop commitOk conns).1,
         .error err) := by
  unfold return_saved_configs commit_config
  simp only [h]

/-- A successful commit loop had every listed device's commit accepted. -/
theorem commit_loop_ok_of_ok {ok : Nat → Bool} {l : List Nat}
    (h : (commit_loop ok l).2 = .ok ()) : ∀ i ∈ l, ok i = true := by
  induction l with
  | nil =>
    intro i hi
    cases hi
  | cons a t ih =>
    by_cases ha : ok a = true
    · intro i hi
      rcases List.mem_cons.mp hi with rfl | hit
      · exact ha
      · exact ih (by simpa [commit_loop, ha] using h) i hit
    · exfalso
      simp [commit_loop, ha] at h

/-- Every run's trace decomposes into the render, a resolve/construct
prefix, an open-and-stage phase, a commit phase and a readback/close phase,
in that order (some phases empty on failing runs). -/
theorem run_trace_decomp (probe : NetmikoParams → Option String)
    (commitOk : Nat → Bool) (cfgs : Nat → List (String × String))
    (ips : List String) (u p : String) (s : Option String) (path : String) :
    ∃ pre stage commits tail,
      (connect_to_device_run probe commitOk cfgs ips u p s path).trace
        = ((Event.renderWrite path :: pre) ++ stage) ++ commits ++ tail ∧
      (∀ e ∈ pre,
        (∃ n, e = .resolveDriver n) ∨ ∃ i, e = .constructDriver i) ∧
      (∀ e ∈ stage, ∃ i, e = .openConn i ∨ e = .load i path) ∧
      (∀ e ∈ commits, ∃ i, e = .commit i) ∧
      (∀ e ∈ tail, (∃ i v, e = .getConfig i v) ∨ ∃ i, e = .close i) := by
  cases hres :
      (get_napalm_driver (pipeline_normalized probe ips u p s)).2 with
  | error err =>
    refine ⟨(get_napalm_driver (pipeline_normalized probe ips u p s)).1,
      [], [], [], ?_, ?_, by simp, by simp, by simp⟩
    · rw [run_eq_of_resolve_error hres]
      simp
    · intro e he
      exact Or.inl (mem_resolve_loop he)
  | ok ds =>
    cases hcommit :
        (commit_loop commitOk (List.range ips.length)).2 with
    | error err =>
      refine ⟨(pipeline_driver_names probe ips u p s).map Event.resolveDriver
          ++ (List.range ips.length).map Event.constructDriver,
        send_config_file path (List.range ips.length),
        (commit_loop commitOk (List.range ips.length)).1, [],
        ?_, ?_, fun e he => mem_send_config_file he, ?_, by simp⟩
      · rw [run_eq_of_resolve_ok hres, return_saved_configs_of_fail hcommit]
        simp [List.append_assoc]
      · intro e he
        rcases List.mem_append.mp he with he | he
        · rcases List.mem_map.mp he with ⟨n, _, rfl⟩
          exact Or.inl ⟨n, rfl⟩
        · rcases List.mem_map.mp he with ⟨i, _, rfl⟩
          exact Or.inr ⟨i, rfl⟩
      · intro e he
        rcases mem_commit_loop he with ⟨i, rfl, _⟩
        exact ⟨i, rfl⟩
    | ok unit2 =>
      cases unit2
      have hok := commit_loop_ok_of_ok hcommit
      refine ⟨(pipeline_driver_names probe ips u p s).map Event.resolveDriver
          ++ (List.range ips.length).map Event.constructDriver,
        send_config_file path (List.range ips.length),
        (commit_loop commitOk (List.range ips.length)).1,
        (List.range ips.length).flatMap
          (fun i => [.getConfig i ((cfgs i).lookup "startup"), .close i]),
        ?_, ?_, fun e he => mem_send_config_file he, ?_, ?_⟩
      · rw [run_eq_of_resolve_ok hres, return_saved_configs_of_ok hok,
          commit_loop_all_ok hok]
        simp [List.append_assoc]
      · intro e he
        rcases List.mem_append.mp he with he | he
        · rcases List.mem_map.mp he with ⟨n, _, rfl⟩
          exact Or.inl ⟨n, rfl⟩
        · rcases List.mem_map.mp he with ⟨i, _, rfl⟩
          exact Or.inr ⟨i, rfl⟩
      · intro e he
        rcases mem_commit_loop he with ⟨i, rfl, _⟩
        exact ⟨i, rfl⟩
      · intro e he
        simp only [List.mem_flatMap] at he
        rcases he with ⟨i, _, hi⟩
        simp only [List.mem_cons, List.mem_singleton] at hi
        rcases hi with rfl | rfl | h
        · exact Or.inl ⟨i, _, rfl⟩
        · exact Or.inr ⟨i, rfl⟩
        · cases h

/-! ### C1 -/

/-- C1: for every fleet of size N whose resolution stage completes, the
netmiko parameter list, the detected-platform list, the normalized-platform
list, the napalm parameter list and the resolved-driver list each equal a
`map` over the original address list — hence each has exactly N entries and
its entry at index `i` is derived from the address at index `i`. -/
theorem C1_fleet_lists_aligned (probe : NetmikoParams → Option String)
    (ips : List String) (u p : String) (s : Option String)
    (ds : List NapalmDriver)
    (h : (get_napalm_driver (pipeline_normalized probe ips u p s)).2
        = .ok ds) :
    fleet_lists_aligned probe ips u p s ds := by
  have h1 := create_netmiko_eq ips u p s
  have h2 := get_netmiko_platform_eq probe ips u p s
  have h3 := pipeline_normalized_eq probe ips u p s
  have h4 := create_napalm_eq ips u p s
  have h5 : ds = (pipeline_driver_names probe ips u p s).map (fun n => ⟨n⟩) :=
    (resolve_loop_of_ok h).2
  refine ⟨h1, h2, h3, h4, h5, ?_, ?_, ?_, ?_, ?_⟩
  · rw [h1, List.length_map]
  · rw [h2, List.length_map]
  · rw [h3, List.length_map]
  · rw [h4, List.length_map]
  · rw [h5, List.length_map]
    unfold pipeline_driver_names napalm_netutils_drivers
    rw [List.length_map, h3, List.length_map]

/-- C1 witness: the alignment evaluated on the concrete two-device fleet
whose resolution succeeds with two `ios` drivers. -/
theorem C1_witness :
    ((get_napalm_driver (pipeline_normalized probe_cisco
        ["10.0.0.1", "10.0.0.2"] "admin" "cisco" none)).2
      = .ok [⟨"ios"⟩, ⟨"ios"⟩]) ∧
    fleet_lists_aligned probe_cisco ["10.0.0.1", "10.0.0.2"] "admin" "cisco"
      none [⟨"ios"⟩, ⟨"ios"⟩] :=
  ⟨rfl, C1_fleet_lists_aligned probe_cisco ["10.0.0.1", "10.0.0.2"] "admin"
    "cisco" none [⟨"ios"⟩, ⟨"ios"⟩] rfl⟩

/-! ### C2 -/

/-- C2 counterexample: in the concrete two-device run every commit is
accepted and the run succeeds, yet it is not the case that every device
completes the connect (open) stage before some device begins the staging
(load-merge-candidate) stage — device 0's load precedes device 1's open,
because `send_config_file` interleaves open and load per device. -/
theorem C2_counterexample :
    two_device_run.result = .ok () ∧
    all_before is_open_ev is_load_ev two_device_run.trace = false :=
  ⟨rfl, rfl⟩

/-- C2 (amended): execution interleaves connect and staging per device, but
is stage-batched from staging onward — in every run, every device's open and
load precede every device's commit, and every commit precedes every
readback-and-close. -/
theorem C2_stage_batched_after_staging (probe : NetmikoParams → Option String)
    (commitOk : Nat → Bool) (cfgs : Nat → List (String × String))
    (ips : List String) (u p : String) (s : Option String) (path : String) :
    stage_batched_after_staging
      (connect_to_device_run probe commitOk cfgs ips u p s path) := by
  obtain ⟨pre, stage, commits, tail, htr, hpre, hstage, hcommits, htail⟩ :=
    run_trace_decomp probe commitOk cfgs ips u p s path
  unfold stage_batched_after_staging
  rw [htr]
  constructor
  · rw [List.append_assoc]
    apply all_before_append
    · intro e he
      rcases List.mem_append.mp he with he | he
      · rcases List.mem_cons.mp he with rfl | he
        · rfl
        · rcases hpre e he with ⟨n, rfl⟩ | ⟨i, rfl⟩ <;> rfl
      · rcases hstage e he with ⟨i, rfl | rfl⟩ <;> rfl
    · intro e he
      rcases List.mem_append.mp he with he | he
      · rcases hcommits e he with ⟨i, rfl⟩
        rfl
      · rcases htail e he with ⟨i, v, rfl⟩ | ⟨i, rfl⟩ <;> rfl
  · apply all_before_append
    · intro e he
      rcases List.mem_append.mp he with he | he
      · rcases List.mem_append.mp he with he | he
        · rcases List.mem_cons.mp he with rfl | he
          · rfl
          · rcases hpre e he with ⟨n, rfl⟩ | ⟨i, rfl⟩ <;> rfl
        · rcases hstage e he with ⟨i, rfl | rfl⟩ <;> rfl
      · rcases hcommits e he with ⟨i, rfl⟩
        rfl
    · intro e he
      rcases htail e he with ⟨i, v, rfl⟩ | ⟨i, rfl⟩ <;> rfl

/-! ### C3 -/

/-- C3 counterexample: in the concrete run where device 2's probe answer is
unrecognized, the pipeline does fail before anything is staged — but not
with a pre-construction `ResolutionFailure`: the empty sentinel is passed to
the napalm factory (the `resolveDriver ""` call is in the trace) and the
failure is the collaborator's import error raised there. -/
theorem C3_counterexample :
    unknown_platform_run.result = .error (.ModuleImportError "") ∧
    is_resolution_failure unknown_platform_run.result = false ∧
    Event.resolveDriver "" ∈ unknown_platform_run.trace :=
  ⟨rfl, rfl, by decide⟩

/-- C3 (amended): for every fleet whose driver-name list contains the empty
sentinel or an unrecognized name, the run fails deterministically — with the
vendor collaborator's import error raised when the invalid name reaches the
factory, not with a pre-construction `ResolutionFailure` — and no device is
constructed, connected, staged or committed. -/
theorem C3_resolution_fails_without_sessions
    (probe : NetmikoParams → Option String) (commitOk : Nat → Bool)
    (cfgs : Nat → List (String × String)) (ips : List String)
    (u p : String) (s : Option String) (path : String)
    (h : ∃ n ∈ pipeline_driver_names probe ips u p s,
      n ∉ known_napalm_drivers) :
    resolution_fails_without_sessions
      (connect_to_device_run probe commitOk cfgs ips u p s path) := by
  obtain ⟨m, herr, hm⟩ := resolve_loop_of_bad h
  have herr2 : (get_napalm_driver (pipeline_normalized probe ips u p s)).2
      = .error (.ModuleImportError m) := herr
  rw [run_eq_of_resolve_error herr2]
  unfold resolution_fails_without_sessions
  refine ⟨⟨m, rfl, hm⟩, ?_⟩
  intro e he
  rcases List.mem_cons.mp he with rfl | he
  · rfl
  · rcases mem_resolve_loop he with ⟨n, rfl⟩
    rfl

/-- C3 witness: the amended property evaluated on the concrete run where
device 2's probe answer is unrecognized, so the driver-name list contains
the empty sentinel. -/
theorem C3_witness :
    (∃ n ∈ pipeline_driver_names probe_unknown_second
        ["10.0.0.1", "10.0.0.2"] "admin" "cisco" none,
      n ∉ known_napalm_drivers) ∧
    resolution_fails_without_sessions unknown_platform_run :=
  ⟨⟨"", by decide, by decide⟩,
   C3_resolution_fails_without_sessions probe_unknown_second all_commits_ok
     startup_configs ["10.0.0.1", "10.0.0.2"] "admin" "cisco" none
     "/cfg/config.txt" ⟨"", by decide, by decide⟩⟩

/-! ### C7 -/

/-- C7: in every run the rendered configuration is written exactly once, as
the very first action, before any device's merge-candidate staging; and
every staging load references exactly the one shared file path. -/
theorem C7_rendered_once_before_staging
    (probe : NetmikoParams → Option String) (commitOk : Nat → Bool)
    (cfgs : Nat → List (String × String)) (ips : List String)
    (u p : String) (s : Option String) (path : String) :
    rendered_once_before_staging
      (connect_to_device_run probe commitOk cfgs ips u p s path) path := by
  obtain ⟨pre, stage, commits, tail, htr, hpre, hstage, hcommits, htail⟩ :=
    run_trace_decomp probe commitOk cfgs ips u p s path
  have htr2 : (connect_to_device_run probe commitOk cfgs ips u p s path).trace
      = Event.renderWrite path :: (pre ++ stage ++ commits ++ tail) := by
    rw [htr]
    simp [List.cons_append, List.append_assoc]
  have hrest : ∀ e ∈ pre ++ stage ++ commits ++ tail,
      is_render_ev e = false ∧ ∀ i pth, e = .load i pth → pth = path := by
    intro e he
    rcases List.mem_append.mp he with he | he
    · rcases List.mem_append.mp he with he | he
      · rcases List.mem_append.mp he with he | he
        · rcases hpre e he with ⟨n, rfl⟩ | ⟨i, rfl⟩ <;>
            exact ⟨rfl, fun i2 pth2 h2 => by cases h2⟩
        · rcases hstage e he with ⟨i, rfl | rfl⟩
          · exact ⟨rfl, fun i2 pth2 h2 => by cases h2⟩
          · refine ⟨rfl, fun i2 pth2 h2 => ?_⟩
            cases h2
            rfl
      · rcases hcommits e he with ⟨i, rfl⟩
        exact ⟨rfl, fun i2 pth2 h2 => by cases h2⟩
    · rcases htail e he with ⟨i, v, rfl⟩ | ⟨i, rfl⟩ <;>
        exact ⟨rfl, fun i2 pth2 h2 => by cases h2⟩
  unfold rendered_once_before_staging
  rw [htr2]
  refine ⟨rfl, ?_, ?_, ?_⟩
  · have h0 : (pre ++ stage ++ commits ++ tail).countP is_render_ev = 0 :=
      List.countP_eq_zero.mpr fun e he => by simp [(hrest e he).1]
    rw [List.countP_cons, h0]
    rfl
  · intro i pth hmem
    rcases List.mem_cons.mp hmem with hh | hh
    · cases hh
    · exact (hrest _ hh).2 i pth rfl
  · rw [← List.singleton_append]
    apply all_before_append
    · intro e he
      rcases List.mem_singleton.mp he with rfl
      rfl
    · intro e he
      exact (hrest e he).1

/-- C7 witness: the property evaluated on the concrete successful two-device
run. -/
theorem C7_witness :
    rendered_once_before_staging two_device_run "/cfg/config.txt" :=
  C7_rendered_once_before_staging probe_cisco all_commits_ok startup_configs
    ["10.0.0.1", "10.0.0.2"] "admin" "cisco" none "/cfg/config.txt"

/-- `filter` distributes over `flatMap`. -/
theorem filter_flatMap {l : List Nat} {f : Nat → List Event}
    {p : Event → Bool} :
    (l.flatMap f).filter p = l.flatMap fun a => (f a).filter p := by
  induction l with
  | nil => rfl
  | cons a t ih => simp [List.flatMap_cons, List.filter_append, ih]

/-- A `flatMap` over a duplicate-free index list whose blocks vanish away
from one index collapses to that index's block. -/
theorem flatMap_support_single {l : List Nat} {i : Nat}
    {g : Nat → List Event} (hnd : l.Nodup) (hi : i ∈ l)
    (hz : ∀ j ∈ l, j ≠ i → g j = []) : l.flatMap g = g i := by
  induction l with
  | nil => cases hi
  | cons a t ih =>
    rcases List.nodup_cons.mp hnd with ⟨hat, htnd⟩
    rcases List.mem_cons.mp hi with rfl | hit
    · have ht : t.flatMap g = [] := by
        rw [List.flatMap_eq_nil_iff]
        intro j hj
        refine hz j (by simp [hj]) fun hji => ?_
        subst hji
        exact hat hj
      simp [List.flatMap_cons, ht]
    · have ha : g a = [] := by
        refine hz a (by simp) fun hai => ?_
        subst hai
        exact hat hit
      rw [List.flatMap_cons, ha, List.nil_append]
      exact ih htnd hit fun j hj hne => hz j (by simp [hj]) hne

/-! ### C8 -/

/-- C8: when resolution succeeded and device `k` is the first whose commit
is rejected, the run aborts there with a `CommitFailure`: devices `0..k-1`
committed exactly once each and stay committed (the model has no rollback
action), no later device commits, and no readback or close ever happens. -/
theorem C8_commit_failure_aborts (probe : NetmikoParams → Option String)
    (commitOk : Nat → Bool) (cfgs : Nat → List (String × String))
    (ips : List String) (u p : String) (s : Option String) (path : String)
    (ds : List NapalmDriver) (k : Nat)
    (hres : (get_napalm_driver (pipeline_normalized probe ips u p s)).2
        = .ok ds)
    (hk : k < ips.length)
    (hok : ∀ j, j < k → commitOk j = true)
    (hfail : commitOk k = false) :
    commit_abort_state
      (connect_to_device_run probe commitOk cfgs ips u p s path) k := by
  have hcl : commit_loop commitOk (List.range ips.length)
      = ((List.range k).map Event.commit, .error (.CommitFailure k)) :=
    commit_loop_range_fail hk hok hfail
  have hclr : (commit_loop commitOk (List.range ips.length)).2
      = .error (.CommitFailure k) := by rw [hcl]
  have htr : (connect_to_device_run probe commitOk cfgs ips u p s path).trace
      = Event.renderWrite path ::
        (((pipeline_driver_names probe ips u p s).map Event.resolveDriver
            ++ (List.range ips.length).map Event.constructDriver)
          ++ (send_config_file path (List.range ips.length)
            ++ (List.range k).map Event.commit)) := by
    rw [run_eq_of_resolve_ok hres, return_saved_configs_of_fail hclr, hcl]
  unfold commit_abort_state
  refine ⟨?_, ?_, ?_⟩
  · rw [run_eq_of_resolve_ok hres, return_saved_configs_of_fail hclr]
  · have hA : ((pipeline_driver_names probe ips u p s).map
        Event.resolveDriver).filter is_commit_ev = [] := by
      rw [List.filter_eq_nil_iff]
      intro e he
      rcases List.mem_map.mp he with ⟨n, _, rfl⟩
      simp [is_commit_ev]
    have hB : ((List.range ips.length).map
        Event.constructDriver).filter is_commit_ev = [] := by
      rw [List.filter_eq_nil_iff]
      intro e he
      rcases List.mem_map.mp he with ⟨j, _, rfl⟩
      simp [is_commit_ev]
    have hS : (send_config_file path
        (List.range ips.length)).filter is_commit_ev = [] := by
      rw [List.filter_eq_nil_iff]
      intro e he
      rcases mem_send_config_file he with ⟨j, rfl | rfl⟩ <;>
        simp [is_commit_ev]
    have hC : ((List.range k).map Event.commit).filter is_commit_ev
        = (List.range k).map Event.commit := by
      rw [List.filter_eq_self]
      intro e he
      rcases List.mem_map.mp he with ⟨j, _, rfl⟩
      rfl
    rw [htr, List.filter_cons, if_neg (by simp [is_commit_ev]),
      List.filter_append, List.filter_append, List.filter_append,
      hA, hB, hS, hC]
    simp
  · rw [htr]
    intro e he
    rcases List.mem_cons.mp he with rfl | he
    · rfl
    rcases List.mem_append.mp he with he | he
    · rcases List.mem_append.mp he with he | he
      · rcases List.mem_map.mp he with ⟨n, _, rfl⟩
        rfl
      · rcases List.mem_map.mp he with ⟨j, _, rfl⟩
        rfl
    · rcases List.mem_append.mp he with he | he
      · rcases mem_send_config_file he with ⟨j, rfl | rfl⟩ <;> rfl
      · rcases List.mem_map.mp he with ⟨j, _, rfl⟩
        rfl

/-- C8 witness: the abort state evaluated on the concrete two-device run
whose second commit is rejected (scenario C): device 0 stays committed,
device 1's rejection ends the run. -/
theorem C8_witness :
    ((get_napalm_driver (pipeline_normalized probe_cisco
          ["10.0.0.1", "10.0.0.2"] "admin" "cisco" none)).2
        = .ok [⟨"ios"⟩, ⟨"ios"⟩] ∧
      1 < 2 ∧ (∀ j, j < 1 → first_commit_ok j = true) ∧
      first_commit_ok 1 = false) ∧
    commit_abort_state
      (connect_to_device_run probe_cisco first_commit_ok startup_configs
        ["10.0.0.1", "10.0.0.2"] "admin" "cisco" none "/cfg/config.txt") 1 :=
  ⟨⟨rfl, by decide, by decide, rfl⟩,
   C8_commit_failure_aborts probe_cisco first_commit_ok startup_configs
     ["10.0.0.1", "10.0.0.2"] "admin" "cisco" none "/cfg/config.txt"
     [⟨"ios"⟩, ⟨"ios"⟩] 1 rfl (by decide) (by decide) rfl⟩

/-! ### C9 -/

/-- C9: in a run where resolution succeeded and every commit is accepted,
every device's session events are exactly open, load of the shared config
path, commit, readback of the configuration mapping's `startup` entry, and
close — each exactly once, in that order. -/
theorem C9_device_session_lifecycle (probe : NetmikoParams → Option String)
    (commitOk : Nat → Bool) (cfgs : Nat → List (String × String))
    (ips : List String) (u p : String) (s : Option String) (path : String)
    (ds : List NapalmDriver) (i : Nat)
    (hres : (get_napalm_driver (pipeline_normalized probe ips u p s)).2
        = .ok ds)
    (hok : ∀ j, j < ips.length → commitOk j = true)
    (hi : i < ips.length) :
    device_session_ordered
      (connect_to_device_run probe commitOk cfgs ips u p s path) i path
      ((cfgs i).lookup "startup") := by
  have hok2 : ∀ j ∈ List.range ips.length, commitOk j = true :=
    fun j hj => hok j (List.mem_range.mp hj)
  have hnd := List.nodup_range ips.length
  have him := List.mem_range.mpr hi
  have htr : (connect_to_device_run probe commitOk cfgs ips u p s path).trace
      = Event.renderWrite path ::
        (((pipeline_driver_names probe ips u p s).map Event.resolveDriver
            ++ (List.range ips.length).map Event.constructDriver)
          ++ ((send_config_file path (List.range ips.length)
              ++ (List.range ips.length).map Event.commit)
            ++ (List.range ips.length).flatMap
              (fun j => [.getConfig j ((cfgs j).lookup "startup"),
                         .close j]))) := by
    rw [run_eq_of_resolve_ok hres, return_saved_configs_of_ok hok2]
  have hA : ((pipeline_driver_names probe ips u p s).map
      Event.resolveDriver).filter (is_dev_session_ev i) = [] := by
    rw [List.filter_eq_nil_iff]
    intro e he
    rcases List.mem_map.mp he with ⟨n, _, rfl⟩
    simp [is_dev_session_ev]
  have hB : ((List.range ips.length).map
      Event.constructDriver).filter (is_dev_session_ev i) = [] := by
    rw [List.filter_eq_nil_iff]
    intro e he
    rcases List.mem_map.mp he with ⟨j, _, rfl⟩
    simp [is_dev_session_ev]
  have hS : (send_config_file path
      (List.range ips.length)).filter (is_dev_session_ev i)
      = [.openConn i, .load i path] := by
    unfold send_config_file
    rw [filter_flatMap,
      flatMap_support_single hnd him
        (fun j hj hne => by simp [is_dev_session_ev, hne])]
    simp [is_dev_session_ev]
  have hC : ((List.range ips.length).map
      Event.commit).filter (is_dev_session_ev i) = [.commit i] := by
    rw [List.map_eq_flatMap, filter_flatMap,
      flatMap_support_single hnd him
        (fun j hj hne => by simp [is_dev_session_ev, hne])]
    simp [is_dev_session_ev]
  have hV : ((List.range ips.length).flatMap
      (fun j => [Event.getConfig j ((cfgs j).lookup "startup"),
                 Event.close j])).filter (is_dev_session_ev i)
      = [.getConfig i ((cfgs i).lookup "startup"), .close i] := by
    rw [filter_flatMap,
      flatMap_support_single hnd him
        (fun j hj hne => by simp [is_dev_session_ev, hne])]
    simp [is_dev_session_ev]
  unfold device_session_ordered
  constructor
  · rw [run_eq_of_resolve_ok hres, return_saved_configs_of_ok hok2]
  · rw [htr, List.filter_cons, if_neg (by simp [is_dev_session_ev]),
      List.filter_append, List.filter_append, List.filter_append,
      List.filter_append, hA, hB, hS, hC, hV]
    simp

/-- C9 witness: the lifecycle evaluated for device 0 of the concrete
successful two-device run: its `startup` readback is the store's
`startup` entry. -/
theorem C9_witness :
    ((get_napalm_driver (pipeline_normalized probe_cisco
          ["10.0.0.1", "10.0.0.2"] "admin" "cisco" none)).2
        = .ok [⟨"ios"⟩, ⟨"ios"⟩] ∧
      (∀ j, j < 2 → all_commits_ok j = true) ∧ 0 < 2) ∧
    device_session_ordered two_device_run 0 "/cfg/config.txt"
      (some "hostname r1") :=
  ⟨⟨rfl, by decide, by decide⟩,
   C9_device_session_lifecycle probe_cisco all_commits_ok startup_configs
     ["10.0.0.1", "10.0.0.2"] "admin" "cisco" none "/cfg/config.txt"
     [⟨"ios"⟩, ⟨"ios"⟩] 0 rfl (by decide) (by decide)⟩

end NapalmProject
